import Mathlib

/-!
Verification of the nlbn_gui conversion pipeline (EasyEDA → KiCad / Altium).

Shallow embedding conventions:
* Rust `f64` values are modelled as exact rationals (`ℚ`); transcendental
  computations (`atan2`, `acos`, `sqrt`, `π`) are modelled over the reals (`ℝ`).
* Rust strings are modelled as `List Char` (the relevant data is ASCII).
* Fallible Rust functions returning `Result` are modelled with `Except`.
* Each definition mirrors one function of the repository; the source file and
  function are named in its doc comment.
-/

namespace Nlbn

/-- Rust strings, modelled as lists of characters. -/
abbrev Str := List Char

/-- Rust `f64 as i32`: truncation toward zero (saturation at the `i32` bounds is
not modelled; all inputs of interest are small). -/
def rustTrunc (q : ℚ) : ℤ :=
  if 0 ≤ q then ⌊q⌋ else -⌊-q⌋

/-- ASCII whitespace, standing in for Rust `char::is_whitespace` on the ASCII
inputs this pipeline handles. -/
def isWs (c : Char) : Bool :=
  c = ' ' || c = '\t' || c = '\n' || c = '\r'

namespace Conv

/-- `nlbn/converter.rs` `px_to_mil`: `(10.0 * px) as i32`. -/
def px_to_mil (px : ℚ) : ℤ :=
  rustTrunc (10 * px)

/-- `nlbn/converter.rs` `px_to_mm`: `10.0 * px * 0.0254`. -/
def px_to_mm (px : ℚ) : ℚ :=
  10 * px * 0.0254

/-- `nlbn/converter.rs` `flip_y`: `-y`. -/
def flip_y (y : ℚ) : ℚ :=
  -y

/-- `nlbn/converter.rs` `deg_to_rad`: `degrees * PI / 180.0` (over ℝ). -/
noncomputable def deg_to_rad (degrees : ℝ) : ℝ :=
  degrees * Real.pi / 180

/-- `nlbn/converter.rs` `rad_to_deg`: `radians * 180.0 / PI` (over ℝ). -/
noncomputable def rad_to_deg (radians : ℝ) : ℝ :=
  radians * 180 / Real.pi

end Conv

/-- `nlbn/error.rs` `ConversionError` (the variants the embedded code can raise). -/
inductive ConversionError where
  | svgParse (msg : String)
  | arcConversion (msg : String)
  | invalidData (msg : String)
deriving DecidableEq, Repr

/-- Rust `str::trim`: drop leading and trailing whitespace. -/
def rustTrim (cs : Str) : Str :=
  ((cs.dropWhile isWs).reverse.dropWhile isWs).reverse

/-- Digit run to a natural number (tokens are already checked to be digits). -/
def digitsVal (cs : Str) : ℕ :=
  cs.foldl (fun a c => 10 * a + (c.toNat - 48)) 0

/-- Rust `str::parse::<f64>` on the decimal grammar `-? (digits | digits "." digits?
| "." digits)` (the only forms the tilde records and SVG tokens use), with the
value taken exactly in ℚ. Anything else (`"."`, `"-"`, `"1-2"`, `"1.2.3"`) fails. -/
def parseF64 (cs : Str) : Option ℚ :=
  let unsigned : Str → Option ℚ := fun t =>
    match t.splitOn '.' with
    | [ip] => if ip ≠ [] ∧ ip.all Char.isDigit then some (digitsVal ip) else none
    | [ip, fp] =>
      if (ip ≠ [] ∨ fp ≠ []) ∧ ip.all Char.isDigit ∧ fp.all Char.isDigit then
        some ((digitsVal ip : ℚ) + (digitsVal fp : ℚ) / 10 ^ fp.length)
      else none
    | _ => none
  match cs with
  | '-' :: rest => (unsigned rest).map Neg.neg
  | _ => unsigned cs

namespace Svg

/-- `nlbn/easyeda/svg_parser.rs` `SvgCommand`. -/
inductive SvgCommand where
  | moveTo (x y : ℚ)
  | lineTo (x y : ℚ)
  | arc (rx ry angle : ℚ) (large_arc sweep : Bool) (x y : ℚ)
  | closePath
deriving DecidableEq, Repr

/-- Regex class `[-\d.]` of the number captures. -/
def numChar (c : Char) : Bool :=
  c.isDigit || c = '-' || c = '.'

/-- Regex class `[,\s]` of the separators. -/
def sepChar (c : Char) : Bool :=
  c = ',' || isWs c

/-- Maximal run of characters satisfying `p`, required nonempty:
returns the token and the rest. The regex classes `\s`, `[,\s]` and `[-\d.]`
used by the source patterns are pairwise compatible in the sense that a greedy
(maximal-munch) scan finds exactly the matches the backtracking engine finds,
because no character of one class can be reassigned to the following class. -/
def munch1 (p : Char → Bool) (cs : Str) : Option (Str × Str) :=
  let tok := cs.takeWhile p
  if tok.isEmpty then none else some (tok, cs.drop tok.length)

/-- Maximal run of characters satisfying `p` (possibly empty). -/
def munch0 (p : Char → Bool) (cs : Str) : Str × Str :=
  (cs.takeWhile p, cs.drop (cs.takeWhile p).length)

/-- One `[,\s]+([-\d.]+)` step: consumed length, number token, rest. -/
def sepNum (cs : Str) : Option (ℕ × Str × Str) :=
  match munch1 sepChar cs with
  | none => none
  | some (sep, r) =>
    match munch1 numChar r with
    | none => none
    | some (tok, r2) => some (sep.length + tok.length, tok, r2)

/-- One `[,\s]+([01])` step: consumed length, flag value, rest. -/
def sepFlag (cs : Str) : Option (ℕ × Bool × Str) :=
  match munch1 sepChar cs with
  | none => none
  | some (sep, r) =>
    match r with
    | c :: r2 => if c = '0' || c = '1' then some (sep.length + 1, c = '1', r2) else none
    | [] => none

/-- Anchored attempt of `X\s*([-\d.]+)[,\s]+([-\d.]+)` at the head of `cs`
(for `X` = `M` or `L`). On success returns the match length minus one
(the command letter) and the two captured tokens. -/
def anchoredPair (letter : Char) (cs : Str) : Option (ℕ × Str × Str) :=
  match cs with
  | [] => none
  | c :: rest =>
    if c = letter then
      let (ws, r1) := munch0 isWs rest
      match munch1 numChar r1 with
      | none => none
      | some (n1, r2) =>
        match sepNum r2 with
        | none => none
        | some (k, n2, _) => some (ws.length + n1.length + k, n1, n2)
    else none

/-- Anchored attempt of the arc pattern
`A\s*(n)[,\s]+(n)[,\s]+(n)[,\s]+([01])[,\s]+([01])[,\s]+(n)[,\s]+(n)`
at the head of `cs`. Returns the match length minus one and the captures. -/
def anchoredArc (cs : Str) :
    Option (ℕ × Str × Str × Str × Bool × Bool × Str × Str) :=
  match cs with
  | [] => none
  | c :: rest =>
    if c = 'A' then
      let (ws, r1) := munch0 isWs rest
      match munch1 numChar r1 with
      | none => none
      | some (rx, r2) =>
        match sepNum r2 with
        | none => none
        | some (k2, ry, r3) =>
          match sepNum r3 with
          | none => none
          | some (k3, ang, r4) =>
            match sepFlag r4 with
            | none => none
            | some (k4, la, r5) =>
              match sepFlag r5 with
              | none => none
              | some (k5, sw, r6) =>
                match sepNum r6 with
                | none => none
                | some (k6, x, r7) =>
                  match sepNum r7 with
                  | none => none
                  | some (k7, y, _) =>
                    some (ws.length + rx.length + k2 + k3 + k4 + k5 + k6 + k7,
                          rx, ry, ang, la, sw, x, y)
    else none

/-- `Regex::captures` on the remaining input: leftmost match of the anchored
pattern, scanning offsets left to right. -/
def findFirst {α : Type} (tryAt : Str → Option α) : Str → Option α
  | [] => tryAt []
  | cs@(_ :: rest) =>
    match tryAt cs with
    | some r => some r
    | none => findFirst tryAt rest

/-- The scan loop of `nlbn/easyeda/svg_parser.rs` `parse_svg_path` (lines
34–92): dispatch on the first character of the remaining input, search the
matching regex anywhere in the remainder, advance by the match length on a hit
and by one character otherwise. Number tokens that fail `f64` parsing abort
with `SvgParse`. The extra `fuel` argument only bounds the iteration count for
structural recursion: every iteration consumes at least one character, so with
`fuel` = input length the zero-fuel case is reached only on empty input, where
it returns the same `.ok []` as the empty case. -/
def parseLoop : ℕ → Str → Except ConversionError (List SvgCommand)
  | 0, _ => .ok []
  | _ + 1, [] => .ok []
  | fuel + 1, c :: rest =>
    if c = 'M' then
      match findFirst (anchoredPair 'M') (c :: rest) with
      | some (k, n1, n2) =>
        match parseF64 n1 with
        | none => .error (.svgParse "Invalid MoveTo X coordinate")
        | some x =>
          match parseF64 n2 with
          | none => .error (.svgParse "Invalid MoveTo Y coordinate")
          | some y => (parseLoop fuel (rest.drop k)).map (SvgCommand.moveTo x y :: ·)
      | none => parseLoop fuel rest
    else if c = 'L' then
      match findFirst (anchoredPair 'L') (c :: rest) with
      | some (k, n1, n2) =>
        match parseF64 n1 with
        | none => .error (.svgParse "Invalid LineTo X coordinate")
        | some x =>
          match parseF64 n2 with
          | none => .error (.svgParse "Invalid LineTo Y coordinate")
          | some y => (parseLoop fuel (rest.drop k)).map (SvgCommand.lineTo x y :: ·)
      | none => parseLoop fuel rest
    else if c = 'A' then
      match findFirst anchoredArc (c :: rest) with
      | some (k, trx, try_, tang, la, sw, tx, ty) =>
        match parseF64 trx with
        | none => .error (.svgParse "Invalid Arc RX")
        | some rx =>
          match parseF64 try_ with
          | none => .error (.svgParse "Invalid Arc RY")
          | some ry =>
            match parseF64 tang with
            | none => .error (.svgParse "Invalid Arc angle")
            | some ang =>
              match parseF64 tx with
              | none => .error (.svgParse "Invalid Arc X coordinate")
              | some x =>
                match parseF64 ty with
                | none => .error (.svgParse "Invalid Arc Y coordinate")
                | some y =>
                  (parseLoop fuel (rest.drop k)).map
                    (SvgCommand.arc rx ry ang la sw x y :: ·)
      | none => parseLoop fuel rest
    else if c = 'Z' || c = 'z' then
      (parseLoop fuel rest).map (SvgCommand.closePath :: ·)
    else
      parseLoop fuel rest

/-- `nlbn/easyeda/svg_parser.rs` `parse_svg_path`: trim, then scan. Note the
source returns `Ok` even when no command was recognized. -/
def parse_svg_path (path : Str) : Except ConversionError (List SvgCommand) :=
  parseLoop (rustTrim path).length (rustTrim path)

end Svg

/-- `nlbn/error.rs` `EasyedaError` (the variant the embedded code can raise). -/
inductive EasyedaError where
  | invalidData (msg : String)
deriving DecidableEq, Repr

/-- `nlbn/error.rs` `AppError` (the wrapper used by importer results). -/
inductive AppError where
  | easyeda (e : EasyedaError)
  | conversion (e : ConversionError)
deriving DecidableEq, Repr

/-- Substring test, Rust `str::contains`: some suffix of `hay` starts with
`needle`. -/
def containsSub (hay needle : Str) : Bool :=
  match hay with
  | [] => needle.isEmpty
  | _ :: t => needle.isPrefixOf hay || containsSub t needle

/-- Rust `str::split_whitespace`: the maximal non-whitespace runs, in order
(accumulator holds the current token reversed). -/
def wsTokensAux : Str → Str → List Str
  | [], acc => if acc.isEmpty then [] else [acc.reverse]
  | c :: r, acc =>
    if isWs c then
      if acc.isEmpty then wsTokensAux r [] else acc.reverse :: wsTokensAux r []
    else wsTokensAux r (c :: acc)

/-- Rust `str::split_whitespace` entry point. -/
def split_whitespace (cs : Str) : List Str :=
  wsTokensAux cs []

namespace Ee

/-- `nlbn/easyeda/models.rs` `EePolygon`. -/
structure EePolygon where
  points : List (ℚ × ℚ)
  stroke_width : ℚ
  fill : Bool
deriving DecidableEq, Repr

/-- `nlbn/easyeda/models.rs` `EePad`. -/
structure EePad where
  number : String
  shape : String
  x : ℚ
  y : ℚ
  width : ℚ
  height : ℚ
  rotation : ℚ
  hole_radius : Option ℚ
  hole_length : Option ℚ
  points : String
  layer_id : ℤ
deriving DecidableEq, Repr

/-- `nlbn/easyeda/models.rs` `EeTrack`. -/
structure EeTrack where
  stroke_width : ℚ
  layer_id : ℤ
  net : String
  points : String
deriving DecidableEq, Repr

/-- `nlbn/easyeda/models.rs` `EeCircle`. -/
structure EeCircle where
  cx : ℚ
  cy : ℚ
  radius : ℚ
  stroke_width : ℚ
  fill : Bool
deriving DecidableEq, Repr

/-- `nlbn/easyeda/models.rs` `EePin` (the fields the Altium converter reads). -/
structure EePin where
  number : String
  name : String
  x : ℚ
  y : ℚ
  rotation : ℤ
  length : ℚ
  electric_type : String
deriving DecidableEq, Repr

/-- The point-collecting loop of `nlbn/easyeda/importer.rs` `parse_pt_path`
(lines 488–504): `M`, `L` and `A` contribute their end point, `Z` only sets the
close flag. -/
def ptPoints : List Svg.SvgCommand → List (ℚ × ℚ)
  | [] => []
  | .moveTo x y :: r => (x, y) :: ptPoints r
  | .lineTo x y :: r => (x, y) :: ptPoints r
  | .arc _ _ _ _ _ x y :: r => (x, y) :: ptPoints r
  | .closePath :: r => ptPoints r

/-- The `has_close_path` flag of `parse_pt_path`: some command is `Z`. -/
def hasClose (cmds : List Svg.SvgCommand) : Bool :=
  cmds.any fun c =>
    match c with
    | .closePath => true
    | _ => false

/-- `nlbn/easyeda/importer.rs` `parse_pt_path` (lines 475–527): parse the SVG
path of field 1, collect the command end points, and when a `Z` was seen close
the polygon by repeating its first point and mark it filled. Field 3, when
present, gives the stroke width with fallback `1.0`. -/
def parse_pt_path (fields : List Str) : Except AppError EePolygon :=
  if fields.length < 2 then
    .error (.easyeda (.invalidData "Invalid path data"))
  else
    match Svg.parse_svg_path (fields.getD 1 []) with
    | .error e => .error (.conversion e)
    | .ok cmds =>
      let pts0 := ptPoints cmds
      let pts :=
        if hasClose cmds then
          match pts0 with
          | [] => pts0
          | p :: _ => pts0 ++ [p]
        else pts0
      let stroke := if 3 < fields.length then (parseF64 (fields.getD 3 [])).getD 1 else 1
      .ok { points := pts, stroke_width := stroke, fill := hasClose cmds }

end Ee

namespace Kicad

/-- `nlbn/kicad/symbol.rs` `PinType`. -/
inductive PinType where
  | input
  | output
  | bidirectional
  | triState
  | passive
  | unspecified
  | powerIn
  | powerOut
  | openCollector
  | openEmitter
  | noConnect
deriving DecidableEq, Repr

namespace PinType

/-- `nlbn/kicad/symbol.rs` `PinType::from_easyeda`: the eleven vendor letters,
everything else defaults to `Unspecified` (the source comments
"Default to Unspecified, not Passive"). -/
def from_easyeda (electric_type : String) : PinType :=
  match electric_type with
  | "I" => .input
  | "O" => .output
  | "B" => .bidirectional
  | "T" => .triState
  | "P" => .passive
  | "U" => .unspecified
  | "W" => .powerIn
  | "w" => .powerOut
  | "C" => .openCollector
  | "E" => .openEmitter
  | "N" => .noConnect
  | _ => .unspecified

/-- `nlbn/kicad/symbol.rs` `PinType::to_kicad_v6`. -/
def to_kicad_v6 : PinType → String
  | .input => "input"
  | .output => "output"
  | .bidirectional => "bidirectional"
  | .triState => "tri_state"
  | .passive => "passive"
  | .unspecified => "unspecified"
  | .powerIn => "power_in"
  | .powerOut => "power_out"
  | .openCollector => "open_collector"
  | .openEmitter => "open_emitter"
  | .noConnect => "no_connect"

/-- `nlbn/kicad/symbol.rs` `PinType::to_kicad_v5`. -/
def to_kicad_v5 : PinType → String
  | .input => "I"
  | .output => "O"
  | .bidirectional => "B"
  | .triState => "T"
  | .passive => "P"
  | .unspecified => "U"
  | .powerIn => "W"
  | .powerOut => "w"
  | .openCollector => "C"
  | .openEmitter => "E"
  | .noConnect => "N"

end PinType

/-- `nlbn/kicad/layers.rs` `map_layer`. -/
def map_layer (layer_id : ℤ) : String :=
  if layer_id = 1 then "F.Cu"
  else if layer_id = 2 then "B.Cu"
  else if layer_id = 3 then "F.SilkS"
  else if layer_id = 4 then "B.SilkS"
  else if layer_id = 5 then "F.Paste"
  else if layer_id = 6 then "B.Paste"
  else if layer_id = 7 then "F.Mask"
  else if layer_id = 8 then "B.Mask"
  else if layer_id = 10 then "Edge.Cuts"
  else if layer_id = 11 then "Edge.Cuts"
  else if layer_id = 12 then "Cmts.User"
  else if layer_id = 13 then "F.Fab"
  else if layer_id = 14 then "B.Fab"
  else if layer_id = 15 then "Dwgs.User"
  else if layer_id = 101 then "F.Fab"
  else "F.SilkS"

/-- `nlbn/kicad/layers.rs` `map_pad_layers_smd`. -/
def map_pad_layers_smd (layer_id : ℤ) : List String :=
  if layer_id = 1 then ["F.Cu", "F.Paste", "F.Mask"]
  else if layer_id = 2 then ["B.Cu", "B.Paste", "B.Mask"]
  else if layer_id = 3 then ["F.SilkS"]
  else if layer_id = 11 then ["*.Cu", "*.Paste", "*.Mask"]
  else if layer_id = 13 then ["F.Fab"]
  else if layer_id = 15 then ["Dwgs.User"]
  else ["F.Cu", "F.Paste", "F.Mask"]

/-- `nlbn/kicad/layers.rs` `map_pad_layers_tht` ("Through-hole pads don't have
paste layers"). -/
def map_pad_layers_tht (layer_id : ℤ) : List String :=
  if layer_id = 1 then ["F.Cu", "F.Mask"]
  else if layer_id = 2 then ["B.Cu", "B.Mask"]
  else if layer_id = 3 then ["F.SilkS"]
  else if layer_id = 11 then ["*.Cu", "*.Mask"]
  else if layer_id = 13 then ["F.Fab"]
  else if layer_id = 15 then ["Dwgs.User"]
  else ["*.Cu", "*.Mask"]

/-- `nlbn/kicad/footprint.rs` `PadType`. -/
inductive PadType where
  | smd
  | throughHole
  | npThroughHole
  | connect
deriving DecidableEq, Repr

/-- `nlbn/kicad/footprint.rs` `PadType::to_kicad`. -/
def PadType.to_kicad : PadType → String
  | .smd => "smd"
  | .throughHole => "thru_hole"
  | .npThroughHole => "np_thru_hole"
  | .connect => "connect"

/-- `nlbn/kicad/footprint.rs` `PadShape`. -/
inductive PadShape where
  | circle
  | rect
  | oval
  | trapezoid
  | roundRect
  | custom
deriving DecidableEq, Repr

/-- `nlbn/kicad/footprint.rs` `PadShape::from_easyeda`. -/
def PadShape.from_easyeda (shape : String) : PadShape :=
  match shape with
  | "ELLIPSE" | "ROUND" => .circle
  | "RECT" => .rect
  | "OVAL" => .oval
  | "POLYGON" => .custom
  | _ => .rect

/-- `nlbn/kicad/footprint.rs` `PadShape::to_kicad`. -/
def PadShape.to_kicad : PadShape → String
  | .circle => "circle"
  | .rect => "rect"
  | .oval => "oval"
  | .trapezoid => "trapezoid"
  | .roundRect => "roundrect"
  | .custom => "custom"

/-- `nlbn/kicad/footprint.rs` `Drill`. -/
structure Drill where
  diameter : ℚ
  width : Option ℚ
  offset_x : ℚ
  offset_y : ℚ
deriving DecidableEq, Repr

/-- `nlbn/kicad/footprint.rs` `KiPad`. -/
structure KiPad where
  number : String
  pad_type : PadType
  shape : PadShape
  pos_x : ℚ
  pos_y : ℚ
  size_x : ℚ
  size_y : ℚ
  rotation : ℚ
  layers : List String
  drill : Option Drill
  polygon : Option String
deriving DecidableEq, Repr

/-- `nlbn/kicad/footprint.rs` `KiLine`. -/
structure KiLine where
  start_x : ℚ
  start_y : ℚ
  end_x : ℚ
  end_y : ℚ
  width : ℚ
  layer : String
deriving DecidableEq, Repr

/-- `nlbn/kicad/footprint.rs` `KiCircle` (the footprint one). -/
structure FpCircle where
  center_x : ℚ
  center_y : ℚ
  end_x : ℚ
  end_y : ℚ
  width : ℚ
  layer : String
  fill : Bool
deriving DecidableEq, Repr

end Kicad

namespace ConvImpl

open Conv Kicad Ee

/-- `converter_impl.rs` `convert_ee_footprint_to_ki`, pad loop (lines 301–332):
through-hole iff a hole radius is recorded, drill diameter is twice the radius
with `width: None` ("No oval drills for now"), position and size go through
`px_to_mm` with the Y flipped, and the layer list is the fixed
`["F.Cu", "F.Paste", "F.Mask"]`. -/
def kiPadOfEePad (p : EePad) : KiPad :=
  { number := p.number
    pad_type := if p.hole_radius.isSome then .throughHole else .smd
    shape := PadShape.from_easyeda p.shape
    pos_x := px_to_mm p.x
    pos_y := px_to_mm (flip_y p.y)
    size_x := px_to_mm p.width
    size_y := px_to_mm p.height
    rotation := p.rotation
    layers := ["F.Cu", "F.Paste", "F.Mask"]
    drill := p.hole_radius.map fun radius =>
      { diameter := radius * 2, width := none, offset_x := 0, offset_y := 0 }
    polygon := none }

/-- The coordinate list a track's points string yields in
`convert_ee_footprint_to_ki` (lines 336–339): split on whitespace, keep the
tokens that parse as `f64`. -/
def trackCoords (t : EeTrack) : List ℚ :=
  (split_whitespace t.points.data).filterMap parseF64

/-- `converter_impl.rs` `convert_ee_footprint_to_ki`, track loop (lines
335–353): a track with at least four parsed coordinates becomes a silkscreen
line with both Y coordinates flipped and scaled. -/
def kiLineOfTrack (t : EeTrack) : Option KiLine :=
  let coords := trackCoords t
  if 4 ≤ coords.length then
    some { start_x := px_to_mm (coords.getD 0 0)
           start_y := px_to_mm (flip_y (coords.getD 1 0))
           end_x := px_to_mm (coords.getD 2 0)
           end_y := px_to_mm (flip_y (coords.getD 3 0))
           width := px_to_mm t.stroke_width
           layer := "F.SilkS" }
  else none

/-- `converter_impl.rs` `convert_ee_footprint_to_ki`, circle loop (lines
356–371): flipped and scaled center, end point at center + radius along +X. -/
def fpCircleOfEeCircle (c : EeCircle) : FpCircle :=
  let center_x := px_to_mm c.cx
  let center_y := px_to_mm (flip_y c.cy)
  let radius_mm := px_to_mm c.radius
  { center_x := center_x
    center_y := center_y
    end_x := center_x + radius_mm
    end_y := center_y
    width := px_to_mm c.stroke_width
    layer := "F.SilkS"
    fill := c.fill }

end ConvImpl

namespace FpExport

open Conv Kicad

/-- The `(at x y)` values of `nlbn/kicad/footprint_exporter.rs` `format_pad`
(lines 69–70): `px_to_mm` is applied to the already stored position
("No flip_y for footprints" — there is indeed no negation at this stage). The
textual `{:.4}` decimal rendering is abstracted; these are the numbers the
emitter prints. -/
def format_pad_at (p : KiPad) : ℚ × ℚ :=
  (px_to_mm p.pos_x, px_to_mm p.pos_y)

/-- The `(size w h)` values of `format_pad` (lines 71–72). -/
def format_pad_size (p : KiPad) : ℚ × ℚ :=
  (px_to_mm p.size_x, px_to_mm p.size_y)

/-- The pad-type lexeme `format_pad` writes (line 77). -/
def format_pad_type (p : KiPad) : String :=
  p.pad_type.to_kicad

/-- The layer names `format_pad` writes inside `(layers …)` (lines 90–94),
verbatim from the pad. -/
def format_pad_layers (p : KiPad) : List String :=
  p.layers

/-- The drill clause `format_pad` writes (lines 97–107). -/
inductive DrillClause where
  | noDrill
  | circular (dia : ℚ)
  | oval (dia width : ℚ)
deriving DecidableEq, Repr

/-- `format_pad` drill logic: `(drill oval d w)` when a width is present,
`(drill d)` otherwise, the values scaled by `px_to_mm`. -/
def format_pad_drill (p : KiPad) : DrillClause :=
  match p.drill with
  | none => .noDrill
  | some d =>
    match d.width with
    | some w => .oval (px_to_mm d.diameter) (px_to_mm w)
    | none => .circular (px_to_mm d.diameter)

/-- The `(start x y)` values of `format_line` (lines 120–121): scaled again,
no negation ("No flip_y for footprints"). -/
def format_line_start (l : KiLine) : ℚ × ℚ :=
  (px_to_mm l.start_x, px_to_mm l.start_y)

/-- The `(center x y)` values of `format_circle` (lines 133–134). -/
def format_circle_center (c : FpCircle) : ℚ × ℚ :=
  (px_to_mm c.center_x, px_to_mm c.center_y)

end FpExport

namespace Altium

/-- `nlbn/altium/symbol.rs` `PinElectrical` (the source constructor `IO` is
spelled `inOut` here). -/
inductive PinElectrical where
  | input
  | inOut
  | output
  | openCollector
  | passive
  | hiZ
  | openEmitter
  | power
deriving DecidableEq, Repr

/-- `nlbn/altium/symbol.rs` `PinElectrical::to_altium_code`. -/
def PinElectrical.to_altium_code : PinElectrical → ℤ
  | .input => 0
  | .inOut => 1
  | .output => 2
  | .openCollector => 3
  | .passive => 4
  | .hiZ => 5
  | .openEmitter => 6
  | .power => 7

/-- `nlbn/altium/symbol.rs` `PinOrientation`. -/
inductive PinOrientation where
  | right
  | left
  | up
  | down
deriving DecidableEq, Repr

/-- `nlbn/altium/symbol.rs` `PinOrientation::to_altium_code`. -/
def PinOrientation.to_altium_code : PinOrientation → ℤ
  | .right => 0
  | .up => 1
  | .left => 2
  | .down => 3

/-- `nlbn/altium/symbol.rs` `AdPin`. -/
structure AdPin where
  x : ℤ
  y : ℤ
  length : ℤ
  name : String
  designator : String
  electrical : PinElectrical
  orientation : PinOrientation
deriving DecidableEq, Repr

/-- `nlbn/altium/converter.rs` `rotation_to_orientation`. -/
def rotation_to_orientation (rotation : ℤ) : PinOrientation :=
  if rotation = 0 then .right
  else if rotation = 90 then .up
  else if rotation = 180 then .left
  else if rotation = 270 then .down
  else .right

/-- The `name.to_uppercase()` binding of `guess_pin_electrical` (ASCII). -/
def name_upper (name : Str) : Str :=
  name.map Char.toUpper

/-- `nlbn/altium/converter.rs` `guess_pin_electrical` (lines 203–220): the
case-insensitive name heuristic, checked in source order. -/
def guess_pin_electrical (name : Str) : PinElectrical :=
  if containsSub (name_upper name) "VCC".data || containsSub (name_upper name) "VDD".data ||
     containsSub (name_upper name) "VSS".data || containsSub (name_upper name) "GND".data ||
     containsSub (name_upper name) "VBAT".data || containsSub (name_upper name) "POWER".data then
    .power
  else if "IN".data.isPrefixOf (name_upper name) ||
          containsSub (name_upper name) "_IN".data then
    .input
  else if "OUT".data.isPrefixOf (name_upper name) ||
          containsSub (name_upper name) "_OUT".data then
    .output
  else if containsSub (name_upper name) "IO".data ||
          containsSub (name_upper name) "GPIO".data ||
          "P".data.isPrefixOf (name_upper name) then
    .inOut
  else
    .passive

/-- `nlbn/altium/converter.rs` `convert_pin` (lines 73–94): grid unit → mil by
`* 100.0 as i32`, fixed length 100, electrical type guessed from the name. -/
def convert_pin (p : Ee.EePin) : AdPin :=
  { x := rustTrunc (p.x * 100)
    y := rustTrunc (p.y * 100)
    length := 100
    name := p.name
    designator := p.number
    electrical := guess_pin_electrical p.name.data
    orientation := rotation_to_orientation p.rotation }

/-- `nlbn/altium/symbol_exporter.rs` `escape_string`. -/
def escape_string (s : String) : String :=
  ((s.replace "|" "\\|").replace "\n" " ").replace "\r" ""

/-- One pin record of `nlbn/altium/symbol_exporter.rs` `write_pins`
(lines 127–145). -/
def write_pin (p : AdPin) : String :=
  "|RECORD=41\n" ++
  "|OWNERINDEX=1\n" ++
  "|OWNERPARTID=-1\n" ++
  "|LOCATION.X=" ++ toString p.x ++ "\n" ++
  "|LOCATION.Y=" ++ toString p.y ++ "\n" ++
  "|PINLENGTH=" ++ toString p.length ++ "\n" ++
  "|ELECTRICAL=" ++ toString p.electrical.to_altium_code ++ "\n" ++
  "|PINCONGLOMERATE=" ++ toString p.orientation.to_altium_code ++ "\n" ++
  "|NAME=" ++ escape_string p.name ++ "\n" ++
  "|DESIGNATOR=" ++ escape_string p.designator ++ "\n" ++
  "|SWAPIDPIN=\n" ++
  "|SWAPIDPART=\n" ++
  "|COLOR=0\n" ++
  "|PINNAME_POSITIONCONGLOMERATE=11\n" ++
  "\n"

/-- `write_pins`: all pin records concatenated. -/
def write_pins (pins : List AdPin) : String :=
  String.join (pins.map write_pin)

end Altium

/-- `nlbn/error.rs` `KicadError` (the variant the library mutator can raise). -/
inductive KicadError where
  | symbolExport (msg : String)
deriving DecidableEq, Repr

namespace Library

/-- Rust `str::trim_end`. -/
def rustTrimEnd (cs : Str) : Str :=
  (cs.reverse.dropWhile isWs).reverse

/-- Rust `str::trim_end_matches(')')`: strips every trailing `)`. -/
def trimEndParens (cs : Str) : Str :=
  (cs.reverse.dropWhile (· = ')')).reverse

/-- First index at which `needle` occurs in `hay`. -/
def findSubIdx (hay needle : Str) : Option ℕ :=
  match hay with
  | [] => if needle.isEmpty then some 0 else none
  | _ :: t =>
    if needle.isPrefixOf hay then some 0
    else (findSubIdx t needle).map (· + 1)

/-- Anchored attempt, at the head of `cs`, of the existence pattern
`\(symbol\s+"name"` of `library.rs` `add_or_update_component` (line 84). -/
def v6ExistsAnchor (name : Str) (cs : Str) : Bool :=
  "(symbol".data.isPrefixOf cs &&
    (let r := cs.drop 7
     let (ws, r2) := Svg.munch0 isWs r
     !ws.isEmpty && ('"' :: (name ++ ['"'])).isPrefixOf r2)

/-- `Regex::is_match` of the v6 existence pattern: some position matches. -/
def v6Exists (name : Str) : Str → Bool
  | [] => v6ExistsAnchor name []
  | cs@(_ :: rest) => v6ExistsAnchor name cs || v6Exists name rest

/-- Anchored attempt of the v6 update pattern
`(?s)\(symbol\s+"name"\s+.*?\n  \)\n` (`update_component_internal`, line 144).
On success returns the match length. The lazy `.*?` is modelled as the first
occurrence of the terminator `"\n  )\n"` after the greedy whitespace runs; on
the emitted library text the terminator never overlaps those runs, so this is
the match the leftmost-first engine finds. -/
def v6UpdateAnchor (name : Str) (cs : Str) : Option ℕ :=
  if "(symbol".data.isPrefixOf cs then
    let r := cs.drop 7
    let (ws, r2) := Svg.munch0 isWs r
    if !ws.isEmpty && ('"' :: (name ++ ['"'])).isPrefixOf r2 then
      let r3 := r2.drop (name.length + 2)
      let (ws2, r4) := Svg.munch0 isWs r3
      if !ws2.isEmpty then
        match findSubIdx r4 "\n  )\n".data with
        | some i => some (7 + ws.length + (name.length + 2) + ws2.length + i + 5)
        | none => none
      else none
    else none
  else none

/-- Anchored attempt of the v5 update pattern `(?s)DEF\s+name\s+.*?ENDDEF\n`
(`update_component_internal`, line 159), same modelling of the lazy part. -/
def v5UpdateAnchor (name : Str) (cs : Str) : Option ℕ :=
  if "DEF".data.isPrefixOf cs then
    let r := cs.drop 3
    let (ws, r2) := Svg.munch0 isWs r
    if !ws.isEmpty && name.isPrefixOf r2 then
      let r3 := r2.drop name.length
      let (ws2, r4) := Svg.munch0 isWs r3
      if !ws2.isEmpty then
        match findSubIdx r4 "ENDDEF\n".data with
        | some i => some (3 + ws.length + name.length + ws2.length + i + 7)
        | none => none
      else none
    else none
  else none

/-- Leftmost match of an anchored pattern: start offset and length. -/
def findMatch (tryAt : Str → Option ℕ) : Str → Option (ℕ × ℕ)
  | [] => (tryAt []).map ((0, ·))
  | cs@(_ :: rest) =>
    match tryAt cs with
    | some len => some (0, len)
    | none => (findMatch tryAt rest).map fun sl => (sl.1 + 1, sl.2)

/-- The v6 header `add_component_internal` writes for a fresh file. -/
def v6Header : Str :=
  "(kicad_symbol_lib\n  (version 20211014)\n  (generator nlbn)".data

/-- The v5 header `add_component_internal` writes for a fresh file. -/
def v5Header : Str :=
  "EESchema-LIBRARY Version 2.4\n#encoding utf-8".data

/-- `library.rs` `add_component_internal` (lines 110–136): trim an existing
file and strip its trailing `)`s, or start from the format-appropriate header;
append the block; re-close v6 files. The file is modelled as
`Option Str` (`none` = absent). -/
def add_component_internal (file : Option Str) (component_data : Str) : Str :=
  let content :=
    match file with
    | some existing => trimEndParens (rustTrimEnd existing)
    | none =>
      if containsSub component_data "(symbol".data then v6Header else v5Header
  let content := content ++ ['\n'] ++ component_data
  let content :=
    if containsSub component_data "(symbol".data then content ++ "\n)".data
    else content
  content ++ ['\n']

/-- `library.rs` `update_component_internal` (lines 139–172): replace the
first v6 match, else the first v5 match, else fail with `SymbolExport`. -/
def update_component_internal (content : Str) (component_name new_data : Str) :
    Except KicadError Str :=
  match findMatch (v6UpdateAnchor component_name) content with
  | some (s, l) => .ok (content.take s ++ new_data ++ content.drop (s + l))
  | none =>
    match findMatch (v5UpdateAnchor component_name) content with
    | some (s, l) => .ok (content.take s ++ new_data ++ content.drop (s + l))
    | none => .error (.symbolExport "Component not found in library")

/-- `library.rs` `add_or_update_component` (lines 75–107): the existence check
uses only the v6 pattern (unlike `component_exists`, which also checks
`DEF name`); update when present and overwriting, add when absent, skip
otherwise. Returns the new file and the `written` flag. -/
def add_or_update_component (file : Option Str) (component_name component_data : Str)
    (overwrite : Bool) : Except KicadError (Option Str × Bool) :=
  let ex :=
    match file with
    | some content => v6Exists component_name content
    | none => false
  if ex && overwrite then
    match file with
    | some content =>
      (update_component_internal content component_name component_data).map
        fun f => (some f, true)
    | none => .ok (none, true)
  else if !ex then
    .ok (some (add_component_internal file component_data), true)
  else
    .ok (file, false)

end Library

/-- Rust `f64::atan2` (`self.atan2(other)` = atan2(self, other)), modelled by
the complex argument: range `(-π, π]`. -/
noncomputable def atan2 (y x : ℝ) : ℝ :=
  Complex.arg ⟨x, y⟩

/-- Rust `f64::to_degrees`. -/
noncomputable def toDegrees (r : ℝ) : ℝ :=
  r * (180 / Real.pi)

namespace Conv

/-- The `while theta < 0 { theta += 360 }` loop of `compute_arc_center`
(lines 135–140). -/
noncomputable def normAddLoop (θ : ℝ) : ℝ :=
  if h : θ < 0 then normAddLoop (θ + 360) else θ
termination_by (⌈-θ / 360⌉).toNat
decreasing_by
  have h1 : -(θ + 360) / 360 = -θ / 360 - 1 := by ring
  have h2 : (0 : ℤ) < ⌈-θ / 360⌉ :=
    Int.ceil_pos.mpr (div_pos (neg_pos.mpr h) (by norm_num))
  rw [h1, Int.ceil_sub_one]
  omega

/-- The `while theta >= 360 { theta -= 360 }` loop of `compute_arc_center`
(lines 141–146). -/
noncomputable def normSubLoop (θ : ℝ) : ℝ :=
  if h : 360 ≤ θ then normSubLoop (θ - 360) else θ
termination_by (⌊θ / 360⌋).toNat
decreasing_by
  have h1 : (θ - 360) / 360 = θ / 360 - 1 := by ring
  have h2 : (1 : ℤ) ≤ ⌊θ / 360⌋ := by
    apply Int.le_floor.mpr
    rw [le_div_iff₀ (by norm_num : (0 : ℝ) < 360)]
    push_cast
    linarith
  rw [h1, Int.floor_sub_one]
  omega

/-- Both normalization loops in sequence, as applied to each angle. -/
noncomputable def normAngle (θ : ℝ) : ℝ :=
  normSubLoop (normAddLoop θ)

/-- `nlbn/converter.rs` `compute_arc_center` (lines 46–149): the W3C endpoint →
center conversion, returning `(cx, cy, θ₁, θ₂)` with both angles normalized.
Divisions by zero denote the Lean junk value `0` where the `f64` code would
produce non-finite values; the range theorem below only concerns the final
normalization, which is total. -/
noncomputable def compute_arc_center (start stop radii : ℝ × ℝ)
    (x_axis_rotation : ℝ) (large_arc sweep : Bool) :
    Except ConversionError (ℝ × ℝ × ℝ × ℝ) :=
  let x1 := start.1; let y1 := start.2
  let x2 := stop.1; let y2 := stop.2
  if |x1 - x2| < 1e-10 ∧ |y1 - y2| < 1e-10 then
    .error (.arcConversion "Start and end points are identical")
  else if |radii.1| < 1e-10 ∨ |radii.2| < 1e-10 then
    .error (.arcConversion "Radii are too small")
  else
    let rx0 := |radii.1|; let ry0 := |radii.2|
    let phi := deg_to_rad x_axis_rotation
    let cos_phi := Real.cos phi; let sin_phi := Real.sin phi
    let dx := (x1 - x2) / 2; let dy := (y1 - y2) / 2
    let x1p := cos_phi * dx + sin_phi * dy
    let y1p := -sin_phi * dx + cos_phi * dy
    let lam := (x1p / rx0) ^ 2 + (y1p / ry0) ^ 2
    let rx := if lam > 1 then rx0 * Real.sqrt lam else rx0
    let ry := if lam > 1 then ry0 * Real.sqrt lam else ry0
    let sq0 := ((rx * ry) ^ 2 - (rx * y1p) ^ 2 - (ry * x1p) ^ 2) /
      ((rx * y1p) ^ 2 + (ry * x1p) ^ 2)
    let sq := if sq0 < 0 then 0 else Real.sqrt sq0
    let sign1 : ℝ := if large_arc = sweep then -1 else 1
    let cxp := sign1 * sq * rx * y1p / ry
    let cyp := -sign1 * sq * ry * x1p / rx
    let cx := cos_phi * cxp - sin_phi * cyp + (x1 + x2) / 2
    let cy := sin_phi * cxp + cos_phi * cyp + (y1 + y2) / 2
    let ux := (x1p - cxp) / rx; let uy := (y1p - cyp) / ry
    let vx := (-x1p - cxp) / rx; let vy := (-y1p - cyp) / ry
    let n1 := Real.sqrt (ux ^ 2 + uy ^ 2)
    let s1 : ℝ := if uy < 0 then -1 else 1
    let theta1 := s1 * Real.arccos (ux / n1)
    let n2 := Real.sqrt ((ux ^ 2 + uy ^ 2) * (vx ^ 2 + vy ^ 2))
    let p2 := ux * vx + uy * vy
    let s2 : ℝ := if ux * vy - uy * vx < 0 then -1 else 1
    let dtheta0 := s2 * Real.arccos (p2 / n2)
    let dtheta :=
      if ¬sweep ∧ dtheta0 > 0 then dtheta0 - 2 * Real.pi
      else if sweep ∧ dtheta0 < 0 then dtheta0 + 2 * Real.pi
      else dtheta0
    let theta2 := theta1 + dtheta
    .ok (cx, cy, normAngle (rad_to_deg theta1), normAngle (rad_to_deg theta2))

end Conv

namespace Ee

/-- `nlbn/easyeda/models.rs` `EeArc` (angles over ℝ, since the vendor-arc path
computes them by `atan2`). -/
structure EeArc where
  x : ℚ
  y : ℚ
  radius : ℚ
  start_angle : ℝ
  end_angle : ℝ
  stroke_width : ℚ

/-- The command fold of `nlbn/easyeda/importer.rs` `parse_svg_arc` (lines
377–427): `M`/`L` move the current point, each `A` becomes a center-at-chord-
midpoint arc with radius `(rx+ry)/2` and `atan2` angles, the bounds swapped by
adding 360 on the appropriate side to make the traversal monotone in the sweep
direction. -/
noncomputable def svgArcLoop : List Svg.SvgCommand → ℚ × ℚ → List EeArc
  | [], _ => []
  | .moveTo x y :: r, _ => svgArcLoop r (x, y)
  | .lineTo x y :: r, _ => svgArcLoop r (x, y)
  | .closePath :: r, pos => svgArcLoop r pos
  | .arc rx ry _ _ sweep x y :: r, pos =>
    let cx := (pos.1 + x) / 2
    let cy := (pos.2 + y) / 2
    let radius := |(rx + ry) / 2|
    let start_angle := toDegrees (atan2 ((pos.2 - cy : ℚ) : ℝ) ((pos.1 - cx : ℚ) : ℝ))
    let end_angle := toDegrees (atan2 ((y - cy : ℚ) : ℝ) ((x - cx : ℚ) : ℝ))
    let angles :=
      if sweep then
        if end_angle < start_angle then (start_angle, end_angle + 360)
        else (start_angle, end_angle)
      else
        if start_angle < end_angle then (start_angle + 360, end_angle)
        else (start_angle, end_angle)
    { x := cx, y := cy, radius := radius,
      start_angle := angles.1, end_angle := angles.2,
      stroke_width := 1 } :: svgArcLoop r (x, y)

/-- `nlbn/easyeda/importer.rs` `parse_svg_arc` (lines 367–430). -/
noncomputable def parse_svg_arc (fields : List Str) : Except AppError (List EeArc) :=
  if fields.length < 2 then
    .error (.easyeda (.invalidData "Invalid SVG arc data"))
  else
    match Svg.parse_svg_path (fields.getD 1 []) with
    | .error e => .error (.conversion e)
    | .ok cmds => .ok (svgArcLoop cmds (0, 0))

end Ee

/-! Concrete inputs used by the claim theorems. -/

/-- Scenario-B pad: hole radius 0.4, size 1.6 × 1.6, front copper layer. -/
def padThtB : Ee.EePad where
  number := "1"
  shape := "ELLIPSE"
  x := 0
  y := 0
  width := 1.6
  height := 1.6
  rotation := 0
  hole_radius := some 0.4
  hole_length := none
  points := ""
  layer_id := 1

/-- An SMD pad recorded on the bottom copper layer (layer id 2). -/
def padSmdBottom : Ee.EePad where
  number := "2"
  shape := "RECT"
  x := 0
  y := 0
  width := 1
  height := 1
  rotation := 0
  hole_radius := none
  hole_length := none
  points := ""
  layer_id := 2

/-- An SMD pad at source Y = 10 px. -/
def padAtY10 : Ee.EePad where
  number := "1"
  shape := "RECT"
  x := 0
  y := 10
  width := 1
  height := 1
  rotation := 0
  hole_radius := none
  hole_length := none
  points := ""
  layer_id := 1

/-- Scenario-C pad: hole radius 0.3 with hole length 0.9 (oval-drill data). -/
def padOvalC : Ee.EePad where
  number := "1"
  shape := "ELLIPSE"
  x := 0
  y := 0
  width := 1
  height := 1
  rotation := 0
  hole_radius := some 0.3
  hole_length := some 0.9
  points := ""
  layer_id := 1

/-- A track whose points string parses to the four coordinates 0 1 2 3. -/
def track0123 : Ee.EeTrack where
  stroke_width := 1
  layer_id := 1
  net := ""
  points := "0 1 2 3"

/-- A circle at source center Y = 10 px. -/
def circleAtY10 : Ee.EeCircle where
  cx := 0
  cy := 10
  radius := 2
  stroke_width := 1
  fill := false

/-- A pin named `VCC` as the Altium converter receives it. -/
def vccPin : Ee.EePin where
  number := "1"
  name := "VCC"
  x := 0
  y := 0
  rotation := 0
  length := 100
  electric_type := ""

/-- The `VCC` pin after `convert_pin` (position 0, guessed Power, right). -/
def vccAdPin : Altium.AdPin where
  x := 0
  y := 0
  length := 100
  name := "VCC"
  designator := "1"
  electrical := .power
  orientation := .right

/-- A v5 `DEF … ENDDEF` component block. -/
def c1DataV5 : Str :=
  "DEF R1 U 0 40 Y Y 1 F N\nENDDEF\n".data

/-- The library file after the first v5 write of `c1DataV5`. -/
def c1FileV5a : Str :=
  ("EESchema-LIBRARY Version 2.4\n#encoding utf-8\n" ++
   "DEF R1 U 0 40 Y Y 1 F N\nENDDEF\n" ++ "\n").data

/-- The library file after the second v5 call: the block is appended again. -/
def c1FileV5b : Str :=
  ("EESchema-LIBRARY Version 2.4\n#encoding utf-8\nDEF R1 U 0 40 Y Y 1 F N\nENDDEF\n" ++
   "DEF R1 U 0 40 Y Y 1 F N\nENDDEF\n\n").data

/-- A v6 `(symbol "X1" …)` component block, indented as the emitter writes it. -/
def c1DataV6 : Str :=
  "  (symbol \"X1\"\n    (pin)\n  )\n".data

/-- The library file after the first v6 write of `c1DataV6`. -/
def c1FileV6a : Str :=
  ("(kicad_symbol_lib\n  (version 20211014)\n  (generator nlbn)\n" ++
   "  (symbol \"X1\"\n    (pin)\n  )\n" ++ "\n)\n").data

/-- The library file after the second v6 overwrite: the regex match starts at
`(symbol` but the replacement block carries its own two-space indent, so the
block gains two leading spaces. -/
def c1FileV6b : Str :=
  ("(kicad_symbol_lib\n  (version 20211014)\n  (generator nlbn)\n" ++
   "    (symbol \"X1\"\n    (pin)\n  )\n" ++ "\n)\n").data

/-- The line `track0123` converts to. -/
def trackLine0123 : Kicad.KiLine where
  start_x := Conv.px_to_mm ((ConvImpl.trackCoords track0123).getD 0 0)
  start_y := Conv.px_to_mm (Conv.flip_y ((ConvImpl.trackCoords track0123).getD 1 0))
  end_x := Conv.px_to_mm ((ConvImpl.trackCoords track0123).getD 2 0)
  end_y := Conv.px_to_mm (Conv.flip_y ((ConvImpl.trackCoords track0123).getD 3 0))
  width := Conv.px_to_mm track0123.stroke_width
  layer := "F.SilkS"

/-- The commands of Scenario D's diode-triangle path. -/
def cmdsTriangle : List Svg.SvgCommand :=
  [.moveTo 0 0, .lineTo 10 5, .lineTo 0 10, .closePath]

/-- Scenario D's expected polygon: first vertex repeated, filled. -/
def polyTriangle : Ee.EePolygon where
  points := [(0, 0), (10, 5), (0, 10), (0, 0)]
  stroke_width := 1
  fill := true

/-! Supporting lemmas. -/

/-- `containsSub` decides infix containment. -/
theorem containsSub_iff (hay needle : Str) :
    containsSub hay needle = true ↔ needle <:+: hay := by
  induction hay with
  | nil => simp [containsSub, List.isEmpty_iff]
  | cons c t ih =>
    simp [containsSub, ih, List.isPrefixOf_iff_prefix, List.infix_cons_iff]

/-- Trimming only removes characters. -/
theorem mem_of_mem_rustTrim {c : Char} {cs : Str} (h : c ∈ rustTrim cs) : c ∈ cs := by
  simp only [rustTrim, List.mem_reverse] at h
  exact (List.dropWhile_sublist _).subset
    (by simpa using (List.dropWhile_sublist (l := (cs.dropWhile isWs).reverse) isWs).subset h)

/-- The scan loop returns `ok []` on input without command letters. -/
theorem parseLoop_no_cmd : ∀ (fuel : ℕ) (cs : Str),
    (∀ c ∈ cs, c ≠ 'M' ∧ c ≠ 'L' ∧ c ≠ 'A' ∧ c ≠ 'Z' ∧ c ≠ 'z') →
    Svg.parseLoop fuel cs = .ok [] := by
  intro fuel
  induction fuel with
  | zero => intro cs _; rfl
  | succ fuel ih =>
    intro cs h
    cases cs with
    | nil => rfl
    | cons c rest =>
      obtain ⟨h1, h2, h3, h4, h5⟩ := h c (by simp)
      have hr : ∀ x ∈ rest, x ≠ 'M' ∧ x ≠ 'L' ∧ x ≠ 'A' ∧ x ≠ 'Z' ∧ x ≠ 'z' :=
        fun x hx => h x (List.mem_cons_of_mem _ hx)
      simp only [Svg.parseLoop]
      rw [if_neg h1, if_neg h2, if_neg h3, if_neg (by simp [h4, h5])]
      exact ih rest hr

/-- `Except.map` keeps errors unchanged. -/
theorem map_error_inv {α β : Type} {x : Except ConversionError α} {f : α → β}
    {e : ConversionError} (h : x.map f = .error e) : x = .error e := by
  cases x with
  | error e2 => simpa [Except.map] using h
  | ok v => simp [Except.map] at h

/-- Every error of the scan loop is an `SvgParse` error. -/
theorem parseLoop_error : ∀ (fuel : ℕ) (cs : Str) (e : ConversionError),
    Svg.parseLoop fuel cs = .error e → ∃ m, e = ConversionError.svgParse m := by
  intro fuel
  induction fuel with
  | zero => intro cs e h; simp [Svg.parseLoop] at h
  | succ fuel ih =>
    intro cs e h
    cases cs with
    | nil => simp [Svg.parseLoop] at h
    | cons c rest =>
      simp only [Svg.parseLoop] at h
      split_ifs at h
      all_goals (try (split at h))
      all_goals (try (split at h))
      all_goals (try (split at h))
      all_goals (try (split at h))
      all_goals (try (split at h))
      all_goals (try (split at h))
      all_goals
        first
        | (exact ih _ _ h)
        | (exact ih _ _ (map_error_inv h))
        | (injection h with h1; exact ⟨_, h1.symm⟩)

/-- The add-then-subtract normalization lands at a nonnegative value. -/
theorem normAddLoop_nonneg (θ : ℝ) : 0 ≤ Conv.normAddLoop θ := by
  induction θ using Conv.normAddLoop.induct with
  | case1 θ h ih => rw [Conv.normAddLoop]; simpa [h] using ih
  | case2 θ h => rw [Conv.normAddLoop]; simp [h]; linarith [not_lt.mp h]

/-- The subtract loop always exits below 360. -/
theorem normSubLoop_lt (θ : ℝ) : Conv.normSubLoop θ < 360 := by
  induction θ using Conv.normSubLoop.induct with
  | case1 θ h ih => rw [Conv.normSubLoop]; simpa [h] using ih
  | case2 θ h => rw [Conv.normSubLoop]; simp [h]; linarith [not_le.mp h]

/-- The subtract loop preserves nonnegativity. -/
theorem normSubLoop_nonneg (θ : ℝ) (h0 : 0 ≤ θ) : 0 ≤ Conv.normSubLoop θ := by
  induction θ using Conv.normSubLoop.induct with
  | case1 θ h ih => rw [Conv.normSubLoop]; simp [h]; exact ih (by linarith)
  | case2 θ h => rw [Conv.normSubLoop]; simpa [h] using h0

/-- `atan2 0 (-1) = π` (the argument of `-1`). -/
theorem atan2_zero_neg_one : atan2 0 (-1) = Real.pi := by
  rw [atan2, show (⟨-1, 0⟩ : ℂ) = -1 by apply Complex.ext <;> simp]
  exact Complex.arg_neg_one

/-- `atan2 0 1 = 0` (the argument of `1`). -/
theorem atan2_zero_one : atan2 0 1 = 0 := by
  rw [atan2, show (⟨1, 0⟩ : ℂ) = 1 by apply Complex.ext <;> simp]
  exact Complex.arg_one

/-- `to_degrees π = 180`. -/
theorem toDegrees_pi : toDegrees Real.pi = 180 := by
  rw [toDegrees]; field_simp

/-- `to_degrees 0 = 0`. -/
theorem toDegrees_zero : toDegrees 0 = 0 := by
  simp [toDegrees]

/-- The converted `VCC` pin, evaluated. -/
theorem convert_pin_vcc : Altium.convert_pin vccPin = vccAdPin := by
  norm_num [Altium.convert_pin, vccPin, vccAdPin, rustTrunc,
    Altium.rotation_to_orientation]
  decide

/-! Claim theorems. -/

/-- Claim C1 (code bug): add-or-update is not idempotent. A v5 `DEF` block is
re-appended on every call — the existence check of `add_or_update_component`
uses only the v6 `(symbol "name"` pattern, so a v5 component is never seen as
present, with either overwrite flag — and a second v6 write with
`overwrite=true` prepends two extra spaces to the block, so the file is not
byte-equal to the single-write result. Only the v6 `overwrite=false` skip
behaves as claimed. -/
theorem C1_add_or_update_not_idempotent :
    Library.add_or_update_component none "R1".data c1DataV5 false
      = .ok (some c1FileV5a, true) ∧
    Library.add_or_update_component (some c1FileV5a) "R1".data c1DataV5 false
      = .ok (some c1FileV5b, true) ∧
    c1FileV5b ≠ c1FileV5a ∧
    Library.add_or_update_component none "X1".data c1DataV6 true
      = .ok (some c1FileV6a, true) ∧
    Library.add_or_update_component (some c1FileV6a) "X1".data c1DataV6 true
      = .ok (some c1FileV6b, true) ∧
    c1FileV6b ≠ c1FileV6a ∧
    Library.add_or_update_component (some c1FileV6a) "X1".data c1DataV6 false
      = .ok (some c1FileV6a, false) :=
  ⟨by rfl, by rfl, by decide, by rfl, by rfl, by decide, by rfl⟩

/-- Claim C2 (code bug): the Scenario-B through-hole pad (hole radius 0.4) is
typed `thru_hole`, but its emitted layer list is the hardcoded
`["F.Cu", "F.Paste", "F.Mask"]` — with a paste layer and without `*.Cu`/
`*.Mask` — because `convert_ee_footprint_to_ki` never consults
`map_pad_layers_tht`/`map_pad_layers_smd`; a bottom-side SMD pad likewise gets
the front-side triple. -/
theorem C2_tht_pad_layers_eval :
    (ConvImpl.kiPadOfEePad padThtB).pad_type = .throughHole ∧
    Kicad.PadType.to_kicad (ConvImpl.kiPadOfEePad padThtB).pad_type = "thru_hole" ∧
    FpExport.format_pad_layers (ConvImpl.kiPadOfEePad padThtB)
      = ["F.Cu", "F.Paste", "F.Mask"] ∧
    FpExport.format_pad_layers (ConvImpl.kiPadOfEePad padThtB) ≠ ["*.Cu", "*.Mask"] ∧
    Kicad.map_pad_layers_tht padThtB.layer_id = ["F.Cu", "F.Mask"] ∧
    FpExport.format_pad_layers (ConvImpl.kiPadOfEePad padSmdBottom)
      = ["F.Cu", "F.Paste", "F.Mask"] ∧
    Kicad.map_pad_layers_smd padSmdBottom.layer_id = ["B.Cu", "B.Paste", "B.Mask"] := by
  decide

/-- Claim C3, counterexample: for a pad at source Y = 10 px the value written
as the pad Y is `px_to_mm (px_to_mm (-10)) = -16129/25000`, not the claimed
`px_to_mm 10 = 2.54`: footprint conversion negates Y and the scale is applied
twice. -/
theorem C3_counterexample :
    (FpExport.format_pad_at (ConvImpl.kiPadOfEePad padAtY10)).2 = -(16129/25000 : ℚ) ∧
    Conv.px_to_mm padAtY10.y = 127/50 ∧
    (FpExport.format_pad_at (ConvImpl.kiPadOfEePad padAtY10)).2
      ≠ Conv.px_to_mm padAtY10.y := by
  refine ⟨?_, ?_, ?_⟩ <;>
    norm_num [FpExport.format_pad_at, ConvImpl.kiPadOfEePad, padAtY10,
      Conv.px_to_mm, Conv.flip_y]

/-- Claim C3, amended: the footprint *exporter* adds no negation, but
`convert_ee_footprint_to_ki` negates Y for pads, tracks and circles and both
stages apply `px_to_mm`, so the emitted Y is `px_to_mm (px_to_mm (-y_src))`
for all three primitive kinds. -/
theorem C3_footprint_y_negated_and_rescaled :
    (∀ p : Ee.EePad,
      (FpExport.format_pad_at (ConvImpl.kiPadOfEePad p)).2
        = Conv.px_to_mm (Conv.px_to_mm (Conv.flip_y p.y))) ∧
    (∀ (t : Ee.EeTrack) (l : Kicad.KiLine), ConvImpl.kiLineOfTrack t = some l →
      (FpExport.format_line_start l).2
        = Conv.px_to_mm (Conv.px_to_mm (Conv.flip_y ((ConvImpl.trackCoords t).getD 1 0)))) ∧
    (∀ c : Ee.EeCircle,
      (FpExport.format_circle_center (ConvImpl.fpCircleOfEeCircle c)).2
        = Conv.px_to_mm (Conv.px_to_mm (Conv.flip_y c.cy))) := by
  refine ⟨fun p => rfl, ?_, fun c => rfl⟩
  intro t l h
  simp only [ConvImpl.kiLineOfTrack] at h
  by_cases hc : 4 ≤ (ConvImpl.trackCoords t).length
  · rw [if_pos hc] at h
    injection h with h1
    rw [← h1]
    rfl
  · rw [if_neg hc] at h
    exact absurd h (by simp)

/-- Claim C3's amended theorem at concrete inputs. -/
theorem C3_footprint_y_negated_and_rescaled_witness :
    (FpExport.format_pad_at (ConvImpl.kiPadOfEePad padAtY10)).2
      = Conv.px_to_mm (Conv.px_to_mm (Conv.flip_y padAtY10.y)) ∧
    (FpExport.format_line_start trackLine0123).2
      = Conv.px_to_mm (Conv.px_to_mm
          (Conv.flip_y ((ConvImpl.trackCoords track0123).getD 1 0))) ∧
    (FpExport.format_circle_center (ConvImpl.fpCircleOfEeCircle circleAtY10)).2
      = Conv.px_to_mm (Conv.px_to_mm (Conv.flip_y circleAtY10.cy)) :=
  ⟨C3_footprint_y_negated_and_rescaled.1 padAtY10,
   C3_footprint_y_negated_and_rescaled.2.1 track0123 trackLine0123 (by rfl),
   C3_footprint_y_negated_and_rescaled.2.2 circleAtY10⟩

/-- Claim C4, counterexample: the Scenario-C pad (hole radius 0.3, hole length
0.9) is emitted with a circular drill clause, not `(drill oval 0.6 0.9)` —
`convert_ee_footprint_to_ki` sets `width: None` ("No oval drills for now"). -/
theorem C4_counterexample :
    FpExport.format_pad_drill (ConvImpl.kiPadOfEePad padOvalC)
      = .circular (Conv.px_to_mm 0.6) ∧
    FpExport.format_pad_drill (ConvImpl.kiPadOfEePad padOvalC)
      ≠ .oval 0.6 0.9 := by
  constructor
  · norm_num [FpExport.format_pad_drill, ConvImpl.kiPadOfEePad, padOvalC, Conv.px_to_mm]
  · simp [FpExport.format_pad_drill, ConvImpl.kiPadOfEePad, padOvalC]

/-- Claim C4, amended: every pad with a recorded hole radius gets a circular
`(drill d)` clause with `d = px_to_mm (2 · hole_radius)`; `hole_length` is
parsed but never used, so no oval drill is ever emitted. -/
theorem C4_drill_always_circular :
    ∀ (p : Ee.EePad) (r : ℚ), p.hole_radius = some r →
      FpExport.format_pad_drill (ConvImpl.kiPadOfEePad p)
        = .circular (Conv.px_to_mm (r * 2)) := by
  intro p r h
  simp [FpExport.format_pad_drill, ConvImpl.kiPadOfEePad, h]

/-- Claim C4's amended theorem at the Scenario-C pad. -/
theorem C4_drill_always_circular_witness :
    FpExport.format_pad_drill (ConvImpl.kiPadOfEePad padOvalC)
      = .circular (Conv.px_to_mm (0.3 * 2)) :=
  C4_drill_always_circular padOvalC 0.3 (by rfl)

/-- Claim C5, counterexample: an input from which no command is parsed returns
`Ok []` — there is no `BadPath` failure — and an input whose first command is
valid can still fail, with an `SvgParse` error, when a later matched number
token (`1-2`) does not parse as `f64`. -/
theorem C5_counterexample :
    Svg.parse_svg_path "xy".data = .ok [] ∧
    Svg.parse_svg_path "M 1,2 M 1-2,3".data
      = .error (.svgParse "Invalid MoveTo X coordinate") :=
  ⟨by rfl, by rfl⟩

/-- Claim C5, amended: the parser skips non-command characters and resumes; an
input containing no command letter at all yields `Ok []` (it never fails for
lack of commands), and when it does fail the error is always an `SvgParse`
error (raised when a matched numeric token fails `f64` parsing, which can
happen even after valid commands). -/
theorem C5_parser_skip_and_error_shape :
    (∀ cs : Str, (∀ c ∈ cs, c ≠ 'M' ∧ c ≠ 'L' ∧ c ≠ 'A' ∧ c ≠ 'Z' ∧ c ≠ 'z') →
      Svg.parse_svg_path cs = .ok []) ∧
    (∀ (cs : Str) (e : ConversionError), Svg.parse_svg_path cs = .error e →
      ∃ m, e = ConversionError.svgParse m) := by
  constructor
  · intro cs h
    rw [Svg.parse_svg_path]
    exact parseLoop_no_cmd _ _ fun c hc => h c (mem_of_mem_rustTrim hc)
  · intro cs e h
    exact parseLoop_error _ _ _ h

/-- Claim C5's amended theorem at concrete inputs. -/
theorem C5_parser_skip_and_error_shape_witness :
    Svg.parse_svg_path "xy".data = .ok [] ∧
    (∃ m, ConversionError.svgParse "Invalid MoveTo X coordinate"
      = ConversionError.svgParse m) :=
  ⟨C5_parser_skip_and_error_shape.1 "xy".data (by decide),
   C5_parser_skip_and_error_shape.2 "M 1,2 M 1-2,3".data _ (by rfl)⟩

/-- Claim C6 (confirmed): a `PT` record whose parsed path has a `Z` and at
least one point yields a filled polygon whose last point equals its first;
without `Z` the fill flag is false and the point list is exactly the command
end points (no vertex appended). -/
theorem C6_pt_path_closed_polygon (f0 s : Str) (rest : List Str)
    (cmds : List Svg.SvgCommand) (poly : Ee.EePolygon)
    (hp : Svg.parse_svg_path s = .ok cmds)
    (hpt : Ee.parse_pt_path (f0 :: s :: rest) = .ok poly) :
    (Ee.hasClose cmds = true → Ee.ptPoints cmds ≠ [] →
      poly.fill = true ∧ poly.points ≠ [] ∧
      poly.points.getLast? = poly.points.head?) ∧
    (Ee.hasClose cmds = false →
      poly.fill = false ∧ poly.points = Ee.ptPoints cmds) := by
  have hlen : ¬ ((f0 :: s :: rest).length < 2) := by
    simp [List.length_cons]
  rw [Ee.parse_pt_path, if_neg hlen,
    show (f0 :: s :: rest).getD 1 [] = s from rfl, hp] at hpt
  injection hpt with hpoly
  subst hpoly
  constructor
  · intro hz hne
    cases hpts : Ee.ptPoints cmds with
    | nil => exact absurd hpts hne
    | cons p t =>
      refine ⟨by simp [hz], by simp [hz, hpts], ?_⟩
      simp only [hz, hpts, if_true]
      rw [List.getLast?_concat]
      simp
  · intro hz
    simp [hz]

/-- Claim C6's theorem at Scenario D (`PT~M 0,0 L 10,5 L 0,10 Z`). -/
theorem C6_pt_path_closed_polygon_witness :
    polyTriangle.fill = true ∧ polyTriangle.points ≠ [] ∧
    polyTriangle.points.getLast? = polyTriangle.points.head? :=
  (C6_pt_path_closed_polygon "PT".data "M 0,0 L 10,5 L 0,10 Z".data []
    cmdsTriangle polyTriangle (by rfl) (by rfl)).1 (by decide) (by decide)

/-- Claim C7 (confirmed): the Altium electrical-type inference follows the
claimed decision chain on the uppercased name — power names, then `IN`-like,
then `OUT`-like, then IO-like, otherwise passive — and a pin named `VCC`
is emitted with `|ELECTRICAL=7` in its RECORD=41 block. -/
theorem C7_pin_electrical_inference :
    (∀ name : Str,
      (("VCC".data <:+: Altium.name_upper name ∨ "VDD".data <:+: Altium.name_upper name ∨
        "VSS".data <:+: Altium.name_upper name ∨ "GND".data <:+: Altium.name_upper name ∨
        "VBAT".data <:+: Altium.name_upper name ∨ "POWER".data <:+: Altium.name_upper name) →
          Altium.guess_pin_electrical name = .power) ∧
      (¬("VCC".data <:+: Altium.name_upper name ∨ "VDD".data <:+: Altium.name_upper name ∨
         "VSS".data <:+: Altium.name_upper name ∨ "GND".data <:+: Altium.name_upper name ∨
         "VBAT".data <:+: Altium.name_upper name ∨ "POWER".data <:+: Altium.name_upper name) →
        ("IN".data <+: Altium.name_upper name ∨ "_IN".data <:+: Altium.name_upper name) →
          Altium.guess_pin_electrical name = .input) ∧
      (¬("VCC".data <:+: Altium.name_upper name ∨ "VDD".data <:+: Altium.name_upper name ∨
         "VSS".data <:+: Altium.name_upper name ∨ "GND".data <:+: Altium.name_upper name ∨
         "VBAT".data <:+: Altium.name_upper name ∨ "POWER".data <:+: Altium.name_upper name) →
        ¬("IN".data <+: Altium.name_upper name ∨ "_IN".data <:+: Altium.name_upper name) →
        ("OUT".data <+: Altium.name_upper name ∨ "_OUT".data <:+: Altium.name_upper name) →
          Altium.guess_pin_electrical name = .output) ∧
      (¬("VCC".data <:+: Altium.name_upper name ∨ "VDD".data <:+: Altium.name_upper name ∨
         "VSS".data <:+: Altium.name_upper name ∨ "GND".data <:+: Altium.name_upper name ∨
         "VBAT".data <:+: Altium.name_upper name ∨ "POWER".data <:+: Altium.name_upper name) →
        ¬("IN".data <+: Altium.name_upper name ∨ "_IN".data <:+: Altium.name_upper name) →
        ¬("OUT".data <+: Altium.name_upper name ∨ "_OUT".data <:+: Altium.name_upper name) →
        ("IO".data <:+: Altium.name_upper name ∨ "GPIO".data <:+: Altium.name_upper name ∨
         "P".data <+: Altium.name_upper name) →
          Altium.guess_pin_electrical name = .inOut) ∧
      (¬("VCC".data <:+: Altium.name_upper name ∨ "VDD".data <:+: Altium.name_upper name ∨
         "VSS".data <:+: Altium.name_upper name ∨ "GND".data <:+: Altium.name_upper name ∨
         "VBAT".data <:+: Altium.name_upper name ∨ "POWER".data <:+: Altium.name_upper name) →
        ¬("IN".data <+: Altium.name_upper name ∨ "_IN".data <:+: Altium.name_upper name) →
        ¬("OUT".data <+: Altium.name_upper name ∨ "_OUT".data <:+: Altium.name_upper name) →
        ¬("IO".data <:+: Altium.name_upper name ∨ "GPIO".data <:+: Altium.name_upper name ∨
          "P".data <+: Altium.name_upper name) →
          Altium.guess_pin_electrical name = .passive)) ∧
    "|ELECTRICAL=7".data <:+: (Altium.write_pin (Altium.convert_pin vccPin)).data := by
  constructor
  · intro name
    have hP : (containsSub (Altium.name_upper name) "VCC".data ||
        containsSub (Altium.name_upper name) "VDD".data ||
        containsSub (Altium.name_upper name) "VSS".data ||
        containsSub (Altium.name_upper name) "GND".data ||
        containsSub (Altium.name_upper name) "VBAT".data ||
        containsSub (Altium.name_upper name) "POWER".data) = true ↔
        ("VCC".data <:+: Altium.name_upper name ∨ "VDD".data <:+: Altium.name_upper name ∨
         "VSS".data <:+: Altium.name_upper name ∨ "GND".data <:+: Altium.name_upper name ∨
         "VBAT".data <:+: Altium.name_upper name ∨
         "POWER".data <:+: Altium.name_upper name) := by
      simp [containsSub_iff, or_assoc]
    have hI : ("IN".data.isPrefixOf (Altium.name_upper name) ||
        containsSub (Altium.name_upper name) "_IN".data) = true ↔
        ("IN".data <+: Altium.name_upper name ∨ "_IN".data <:+: Altium.name_upper name) := by
      simp [containsSub_iff, List.isPrefixOf_iff_prefix]
    have hO : ("OUT".data.isPrefixOf (Altium.name_upper name) ||
        containsSub (Altium.name_upper name) "_OUT".data) = true ↔
        ("OUT".data <+: Altium.name_upper name ∨
         "_OUT".data <:+: Altium.name_upper name) := by
      simp [containsSub_iff, List.isPrefixOf_iff_prefix]
    have hG : (containsSub (Altium.name_upper name) "IO".data ||
        containsSub (Altium.name_upper name) "GPIO".data ||
        "P".data.isPrefixOf (Altium.name_upper name)) = true ↔
        ("IO".data <:+: Altium.name_upper name ∨ "GPIO".data <:+: Altium.name_upper name ∨
         "P".data <+: Altium.name_upper name) := by
      simp [containsSub_iff, List.isPrefixOf_iff_prefix, or_assoc]
    refine ⟨?_, ?_, ?_, ?_, ?_⟩
    · intro h
      rw [Altium.guess_pin_electrical, if_pos (hP.mpr h)]
    · intro hn h
      rw [Altium.guess_pin_electrical, if_neg (fun hc => hn (hP.mp hc)),
        if_pos (hI.mpr h)]
    · intro hn1 hn2 h
      rw [Altium.guess_pin_electrical, if_neg (fun hc => hn1 (hP.mp hc)),
        if_neg (fun hc => hn2 (hI.mp hc)), if_pos (hO.mpr h)]
    · intro hn1 hn2 hn3 h
      rw [Altium.guess_pin_electrical, if_neg (fun hc => hn1 (hP.mp hc)),
        if_neg (fun hc => hn2 (hI.mp hc)), if_neg (fun hc => hn3 (hO.mp hc)),
        if_pos (hG.mpr h)]
    · intro hn1 hn2 hn3 hn4
      rw [Altium.guess_pin_electrical, if_neg (fun hc => hn1 (hP.mp hc)),
        if_neg (fun hc => hn2 (hI.mp hc)), if_neg (fun hc => hn3 (hO.mp hc)),
        if_neg (fun hc => hn4 (hG.mp hc))]
  · rw [convert_pin_vcc, ← containsSub_iff]
    decide

/-- Claim C7's theorem at the spec's example names. -/
theorem C7_pin_electrical_inference_witness :
    Altium.guess_pin_electrical "VCC".data = .power ∧
    Altium.guess_pin_electrical "GND".data = .power ∧
    Altium.guess_pin_electrical "IN1".data = .input ∧
    Altium.guess_pin_electrical "OUT1".data = .output ∧
    Altium.guess_pin_electrical "PA0".data = .inOut ∧
    Altium.guess_pin_electrical "DATA".data = .passive :=
  ⟨(C7_pin_electrical_inference.1 "VCC".data).1 (by decide),
   (C7_pin_electrical_inference.1 "GND".data).1 (by decide),
   (C7_pin_electrical_inference.1 "IN1".data).2.1 (by decide) (by decide),
   (C7_pin_electrical_inference.1 "OUT1".data).2.2.1 (by decide) (by decide) (by decide),
   (C7_pin_electrical_inference.1 "PA0".data).2.2.2.1 (by decide) (by decide)
     (by decide) (by decide),
   (C7_pin_electrical_inference.1 "DATA".data).2.2.2.2 (by decide) (by decide)
     (by decide) (by decide)⟩

/-- Claim C8, counterexample: the vendor-arc midpoint approximation applied to
`A~M 0,0 A 1,1 0 0 1 2,0` stores `start_angle = 180` and `end_angle = 360` —
the sweep adjustment adds 360 without renormalizing, so the stored end angle
is not in `[0, 360)`. -/
theorem C8_counterexample :
    Ee.parse_svg_arc ["A".data, "M 0,0 A 1,1 0 0 1 2,0".data] =
      .ok [{ x := 1, y := 0, radius := 1, start_angle := 180, end_angle := 360,
             stroke_width := 1 }] ∧
    ¬((360 : ℝ) < 360) := by
  refine ⟨?_, by norm_num⟩
  have hp : Svg.parse_svg_path "M 0,0 A 1,1 0 0 1 2,0".data =
      .ok [.moveTo 0 0, .arc 1 1 0 false true 2 0] := by rfl
  rw [Ee.parse_svg_arc, if_neg (by norm_num),
    show (["A".data, "M 0,0 A 1,1 0 0 1 2,0".data]).getD 1 [] =
      "M 0,0 A 1,1 0 0 1 2,0".data from rfl, hp]
  simp only [Ee.svgArcLoop]
  have e1 : ((0 - (0 + 0) / 2 : ℚ) : ℝ) = 0 := by push_cast; norm_num
  have e2 : ((0 - (0 + 2) / 2 : ℚ) : ℝ) = -1 := by push_cast; norm_num
  have e4 : ((2 - (0 + 2) / 2 : ℚ) : ℝ) = 1 := by push_cast; norm_num
  rw [e1, e2, e4, atan2_zero_neg_one, atan2_zero_one, toDegrees_pi, toDegrees_zero]
  rw [if_pos (by norm_num : (0 : ℝ) < 180)]
  norm_num

/-- Claim C8, amended: every arc the W3C endpoint→center converter returns has
both angles normalized into `[0, 360)` (the vendor-arc midpoint path does not
normalize — see the counterexample). -/
theorem C8_arc_center_angles_normalized :
    ∀ (s e r : ℝ × ℝ) (rot : ℝ) (la sw : Bool),
      match Conv.compute_arc_center s e r rot la sw with
      | .ok out => 0 ≤ out.2.2.1 ∧ out.2.2.1 < 360 ∧ 0 ≤ out.2.2.2 ∧ out.2.2.2 < 360
      | .error _ => True := by
  intro s e r rot la sw
  rw [Conv.compute_arc_center]
  by_cases h1 : |s.1 - e.1| < 1e-10 ∧ |s.2 - e.2| < 1e-10
  · rw [if_pos h1]; trivial
  · rw [if_neg h1]
    by_cases h2 : |r.1| < 1e-10 ∨ |r.2| < 1e-10
    · rw [if_pos h2]; trivial
    · rw [if_neg h2]
      exact ⟨normSubLoop_nonneg _ (normAddLoop_nonneg _), normSubLoop_lt _,
        normSubLoop_nonneg _ (normAddLoop_nonneg _), normSubLoop_lt _⟩

/-- Claim C9, counterexample: `px_to_mil` truncates toward zero (`as i32`), so
`px_to_mil 0.19 = 1` while `round (10 · 0.19) = 2`. -/
theorem C9_counterexample :
    Conv.px_to_mil (19/100) = 1 ∧
    round ((10 : ℚ) * (19/100)) = 2 ∧
    Conv.px_to_mil (19/100) ≠ round ((10 : ℚ) * (19/100)) := by
  refine ⟨?_, ?_, ?_⟩ <;>
    norm_num [Conv.px_to_mil, rustTrunc, round_eq]

/-- Claim C9, amended: `px_to_mil x = trunc (10·x)` (floor for nonnegative,
negated floor of the negation otherwise), and the other coordinate laws hold:
`flip_y` is an involution, `px_to_mm 10 = 2.54`, `deg_to_rad 180 = π`. -/
theorem C9_coordinate_laws_trunc :
    (∀ x : ℚ, 0 ≤ x → Conv.px_to_mil x = ⌊10 * x⌋) ∧
    (∀ x : ℚ, x < 0 → Conv.px_to_mil x = -⌊-(10 * x)⌋) ∧
    (∀ y : ℚ, Conv.flip_y (Conv.flip_y y) = y) ∧
    Conv.px_to_mm 10 = 2.54 ∧
    Conv.deg_to_rad 180 = Real.pi := by
  refine ⟨?_, ?_, ?_, ?_, ?_⟩
  · intro x h
    rw [Conv.px_to_mil, rustTrunc, if_pos (by positivity)]
  · intro x h
    rw [Conv.px_to_mil, rustTrunc, if_neg (by nlinarith)]
  · intro y
    simp [Conv.flip_y]
  · norm_num [Conv.px_to_mm]
  · rw [Conv.deg_to_rad]; field_simp

/-- Claim C9's amended theorem at concrete inputs. -/
theorem C9_coordinate_laws_trunc_witness :
    Conv.px_to_mil 3 = ⌊(10 : ℚ) * 3⌋ ∧
    Conv.px_to_mil (-1/2) = -⌊-((10 : ℚ) * (-1/2))⌋ :=
  ⟨C9_coordinate_laws_trunc.1 3 (by norm_num),
   C9_coordinate_laws_trunc.2.1 (-1/2) (by norm_num)⟩

/-- Claim C10 (confirmed): every vendor electrical-type string other than the
eleven recognized letters — the empty string included — maps to `Unspecified`,
emitted as `unspecified` in v6 and `U` in v5, and never to `Passive`. -/
theorem C10_unknown_pin_type_unspecified (s : String)
    (h1 : s ≠ "I") (h2 : s ≠ "O") (h3 : s ≠ "B") (h4 : s ≠ "T") (h5 : s ≠ "P")
    (h6 : s ≠ "U") (h7 : s ≠ "W") (h8 : s ≠ "w") (h9 : s ≠ "C") (h10 : s ≠ "E")
    (h11 : s ≠ "N") :
    Kicad.PinType.from_easyeda s = .unspecified ∧
    Kicad.PinType.to_kicad_v6 (Kicad.PinType.from_easyeda s) = "unspecified" ∧
    Kicad.PinType.to_kicad_v5 (Kicad.PinType.from_easyeda s) = "U" ∧
    Kicad.PinType.from_easyeda s ≠ .passive := by
  have hu : Kicad.PinType.from_easyeda s = .unspecified := by
    unfold Kicad.PinType.from_easyeda
    split <;> simp_all
  rw [hu]
  exact ⟨rfl, rfl, rfl, by decide⟩

/-- Claim C10's theorem at the empty string. -/
theorem C10_unknown_pin_type_unspecified_witness :
    Kicad.PinType.from_easyeda "" = .unspecified ∧
    Kicad.PinType.to_kicad_v6 (Kicad.PinType.from_easyeda "") = "unspecified" ∧
    Kicad.PinType.to_kicad_v5 (Kicad.PinType.from_easyeda "") = "U" ∧
    Kicad.PinType.from_easyeda "" ≠ .passive :=
  C10_unknown_pin_type_unspecified "" (by decide) (by decide) (by decide)
    (by decide) (by decide) (by decide) (by decide) (by decide) (by decide)
    (by decide) (by decide)

end Nlbn
